import Mathlib

/-!
Verification of the nidavellir environment-provisioning pipeline.

Shallow embedding of the Rust sources:
  * `src/docker/mod.rs`  — port allocator, network allocator, network
    provisioner, service launcher, twerg pipeline;
  * `src/db/pg.rs`, `src/db/model.rs` — store-error translation;
  * `src/api/model.rs`   — `create_environment` orchestration.

External effects (TCP bind probes, docker engine calls, database calls)
are modelled by oracles: a TCP probe becomes a predicate
`occupied : Nat → Bool`, engine and database calls become `Except`-valued
inputs, so that each embedded function is a pure function of the code
plus the answers the environment would give it.  A Rust panic (a failed
`unwrap`, `expect` or out-of-bounds index) is modelled as `none`.
-/

namespace Nidavellir

/-! Port allocator — `get_available_port`, src/docker/mod.rs lines 112-131.

The Rust code scans `base..base+99` (so ports `base`..`base+98`), takes
the longest prefix of ports whose bind attempt fails (`take_while
listener.is_err()`), then does `failed_ports.pop().expect("some port") + 1`.
`pop()` on the empty vector panics: the panic is modelled as `none`.
`occupied p = true` models "binding port `p` fails". -/

def get_available_port (occupied : Nat → Bool) (base : Nat) : Option Nat :=
  let failed_ports := (List.range' base 99).takeWhile occupied
  match failed_ports.getLast? with
  | some p => some (p + 1)
  | none => none

/-! Network allocator — `get_network_base`, src/docker/mod.rs lines 139-181.

The Rust code collects the second octet of every existing subnet into
`ids`, sorts ascending (`ids.sort()`), takes `first = ids[0]` (panic on
empty, modelled `none`), zips the sorted list with `0,1,2,…` and finds the
first pair `(val, idx)` with `first + idx < val`; the chosen octet is
`first + idx`, or `first + ids.len()` when no such pair exists.  The
result is formatted as `"172.<octet>"`. -/

def sorted_octets (ids : List Nat) : List Nat :=
  List.insertionSort (· ≤ ·) ids

def network_base_octet (ids : List Nat) : Option Nat :=
  match ids with
  | [] => none
  | _ :: _ =>
    let sorted := sorted_octets ids
    let first := sorted.getD 0 0
    match (sorted.zip (List.range sorted.length)).find?
        (fun vi => decide (first + vi.2 < vi.1)) with
    | some vi => some (first + vi.2)
    | none => some (first + ids.length)

def get_network_base (ids : List Nat) : Option String :=
  (network_base_octet ids).map (fun res => "172." ++ toString res)

/-! Store-error translation — src/db/pg.rs lines 56-77 and
src/db/model.rs lines 115-142.

`PgErrorData` carries the fields the translation reads: the SQLSTATE
`code` (an `Option`; the Rust calls `.unwrap()` on it), the `message`,
and the `details` (an `Option`, `.unwrap()`ed in the 23505 arm).
`SqlxError` models `sqlx::Error`: `RowNotFound`, `Database` (whose
payload may or may not downcast to a Postgres error — `none` models a
non-Postgres database error), and `Other` for every remaining variant. -/

/-- Model of Rust's `str::starts_with` at the character-list level. -/
def starts_with (s p : String) : Bool := p.data.isPrefixOf s.data

structure PgErrorData where
  code : Option String
  message : String
  details : Option String
  deriving DecidableEq

inductive SqlxError where
  | RowNotFound
  | Database (pg : Option PgErrorData)
  | Other (tag : String)
  deriving DecidableEq

inductive ProvideError where
  | NotFound
  | UniqueViolation (details : String)
  | ModelViolation (details : String)
  | UnHandledError (source : SqlxError)
  deriving DecidableEq

def try_from_pg (pg_err : PgErrorData) : Option (Except Unit ProvideError) :=
  match pg_err.code with
  | none => none
  | some code =>
    if code = "23505" then
      match pg_err.details with
      | none => none
      | some d => some (.ok (.UniqueViolation d))
    else if starts_with code "23" then
      some (.ok (.ModelViolation pg_err.message))
    else
      some (.error ())

def provide_error_from (e : SqlxError) : Option ProvideError :=
  match e with
  | .RowNotFound => some .NotFound
  | .Database db_err =>
    match db_err with
    | some pg_err =>
      match try_from_pg pg_err with
      | some (.ok provide_err) => some provide_err
      | some (.error ()) => some (.UnHandledError (.Database (some pg_err)))
      | none => none
    | none => some (.UnHandledError (.Database none))
  | .Other t => some (.UnHandledError (.Other t))

/-- The conditions under which the source's `.unwrap()` calls cannot
panic: a Postgres error always has a SQLSTATE code, and a 23505
(unique-violation) error carries details. -/
def sqlx_wellformed : SqlxError → Prop
  | .Database (some pg) =>
      pg.code ≠ none ∧ (pg.code = some "23505" → pg.details ≠ none)
  | _ => True

/-! Network provisioner — `create_network`, src/docker/mod.rs lines
340-389, and `format_network`, lines 406-408.  The docker engine call is
an oracle from the constructed options to an `Except`-valued response. -/

def format_network (env : String) : String := env ++ "_default"

structure Ipam where
  driver : Option String
  config : Option (List (List (String × String)))
  options : Option Unit
  deriving DecidableEq

structure CreateNetworkOptions where
  name : String
  driver : String
  ipam : Ipam
  labels : List (String × String)
  deriving DecidableEq

structure CreateNetworkResponse where
  id : Option String
  deriving DecidableEq

inductive NetworkError (E : Type) where
  | engine (e : E)
  | idMissing
  deriving DecidableEq

def network_options (env_name : String) (ip_range_base : String) :
    CreateNetworkOptions :=
  { name := format_network env_name
    driver := "bridge"
    ipam := { driver := some "default"
              config := some [[("Subnet", ip_range_base ++ ".0.0/16"),
                               ("Gateway", ip_range_base ++ ".0.1")]]
              options := none }
    labels := [("nidavellir.network", "default"),
               ("nidavellir.version", "0.4.2"),
               ("nidavellir.environment", env_name)] }

def create_network {E : Type}
    (engine : CreateNetworkOptions → Except E CreateNetworkResponse)
    (env_name : String) (ip_range_base : String) :
    Except (NetworkError E) String :=
  match engine (network_options env_name ip_range_base) with
  | .error e => .error (.engine e)
  | .ok result =>
    match result.id with
    | some id => .ok id
    | none => .error .idMissing

/-! Service configuration and launcher — `ServiceConfig`,
src/docker/mod.rs lines 22-42; the per-service rewriting done by
`create_twerg` (lines 88-98: set the network id, and replace the nginx
service's port map by 80 ↦ allocated port); and the port-binding map
built by `create_container` (lines 228-244).  The Rust `HashMap` port
maps are modelled as association lists. -/

structure DockerConfig where
  image : String
  tag : String
  deriving DecidableEq, Inhabited

structure NetworkConfig where
  addr_base : String
  addr_suffix : Nat
  id : Option String
  deriving DecidableEq, Inhabited

structure ServiceConfig where
  service : String
  docker : DockerConfig
  network : NetworkConfig
  envs : Option (List String)
  ports : Option (List (String × Option String))
  deriving DecidableEq, Inhabited

def twerg_transform (network_id : String) (port : Nat)
    (config : ServiceConfig) : ServiceConfig :=
  let config := { config with
    network := { config.network with id := some network_id } }
  if config.service = "nginx" then
    { config with ports := some [("80", some (toString port))] }
  else
    config

structure PortBinding where
  host_ip : String
  host_port : String
  deriving DecidableEq

def container_port_bindings (config : ServiceConfig) :
    Option (List (String × List PortBinding)) :=
  config.ports.map (fun ports =>
    ports.filterMap (fun ie =>
      ie.2.map (fun external =>
        (ie.1 ++ "/tcp", [⟨"0.0.0.0", external⟩]))))

/-- Whether a container specification carries some binding whose host
port is the given allocated port. -/
def binds_host_port (config : ServiceConfig) (port : Nat) : Bool :=
  match container_port_bindings config with
  | none => false
  | some bs => bs.any (fun entry =>
      entry.2.any (fun b => b.host_port = toString port))

def api_service_example : ServiceConfig :=
  { service := "api"
    docker := { image := "api", tag := "latest" }
    network := { addr_base := "172.18", addr_suffix := 2, id := none }
    envs := none
    ports := some [("80", some "9002")] }

def nginx_service_example : ServiceConfig :=
  { service := "nginx"
    docker := { image := "nginx", tag := "latest" }
    network := { addr_base := "172.18", addr_suffix := 3, id := none }
    envs := none
    ports := some [("80", none)] }

/-! Provisioning pipeline — `create_twerg`, src/docker/mod.rs lines
64-104, continued by `create_environment`, src/api/model.rs lines
315-353.  Each external call is an oracle field; the run returns the
trace of completed pipeline steps, the list of services whose launch was
attempted, whether the store's `create_environment` stage was reached,
and the overall result.  The source's call order is: load config (line
69), connect (71), `get_network_base` (77), `get_available_port` (81),
`create_network` (85), sequential `launch_service` over the rewritten
configs (87-101); on success `create_environment` persists the row
(api/model.rs 339-347). -/

inductive Step where
  | Start | PortAllocated | NetworkBaseChosen | NetworkCreated
  | ServicesLaunched | Persisted | Done
  deriving DecidableEq

def pipeline_order : List Step :=
  [.Start, .NetworkBaseChosen, .PortAllocated, .NetworkCreated,
   .ServicesLaunched, .Persisted, .Done]

/-- Model of `stream::iter(config).try_for_each(launch)` (lines 87-101),
instrumented with the list of services whose launch was attempted. -/
def run_launches {E : Type} (launch : ServiceConfig → Except E Unit) :
    List ServiceConfig → List ServiceConfig × Except E Unit
  | [] => ([], .ok ())
  | c :: cs =>
    match launch c with
    | .error e => ([c], .error e)
    | .ok _ =>
      let rest := run_launches launch cs
      (c :: rest.1, rest.2)

structure PipelineOracle (E : Type) where
  config : Except E (List ServiceConfig)
  connect : Except E Unit
  network_base : Except E String
  port : Except E Nat
  create_net : Except E String
  launch : ServiceConfig → Except E Unit
  persist : Except E Unit

def create_environment_run {E : Type} (o : PipelineOracle E) :
    List Step × List ServiceConfig × Bool × Except E Nat :=
  match o.config with
  | .error e => ([.Start], [], false, .error e)
  | .ok config =>
    match o.connect with
    | .error e => ([.Start], [], false, .error e)
    | .ok _ =>
      match o.network_base with
      | .error e => ([.Start], [], false, .error e)
      | .ok _ =>
        match o.port with
        | .error e => ([.Start, .NetworkBaseChosen], [], false, .error e)
        | .ok port =>
          match o.create_net with
          | .error e =>
            ([.Start, .NetworkBaseChosen, .PortAllocated], [], false, .error e)
          | .ok network_id =>
            match run_launches o.launch
                (config.map (twerg_transform network_id port)) with
            | (attempted, .error e) =>
              ([.Start, .NetworkBaseChosen, .PortAllocated, .NetworkCreated],
                attempted, false, .error e)
            | (attempted, .ok _) =>
              match o.persist with
              | .error e =>
                ([.Start, .NetworkBaseChosen, .PortAllocated, .NetworkCreated,
                  .ServicesLaunched], attempted, true, .error e)
              | .ok _ =>
                ([.Start, .NetworkBaseChosen, .PortAllocated, .NetworkCreated,
                  .ServicesLaunched, .Persisted, .Done],
                  attempted, true, .ok port)

def all_ok_oracle : PipelineOracle Unit :=
  { config := .ok []
    connect := .ok ()
    network_base := .ok "172.18"
    port := .ok 9002
    create_net := .ok "netid"
    launch := fun _ => .ok ()
    persist := .ok () }

def failing_oracle : PipelineOracle String :=
  { config := .ok [api_service_example, nginx_service_example]
    connect := .ok ()
    network_base := .ok "172.18"
    port := .ok 9002
    create_net := .ok "netid"
    launch := fun c => if c.service = "nginx" then .error "boom" else .ok ()
    persist := .ok () }

/-! Theorems. -/

/-- The longest `p`-true prefix of `range' s n` is `range' s k` when the
first `k` entries satisfy `p` and entry `k` (if inside) does not. -/
theorem takeWhile_range'_eq (p : Nat → Bool) :
    ∀ (n s k : Nat), k ≤ n → (∀ i, i < k → p (s + i) = true) →
      (k < n → p (s + k) = false) →
      (List.range' s n).takeWhile p = List.range' s k := by
  intro n
  induction n with
  | zero =>
    intro s k hk _ _
    interval_cases k
    simp
  | succ m ih =>
    intro s k hk htrue hfalse
    rw [List.range'_succ, List.takeWhile_cons]
    match k with
    | 0 =>
      have h0 : p s = false := by
        have := hfalse (Nat.succ_pos m)
        simpa using this
      simp [h0]
    | j + 1 =>
      have h0 : p s = true := by
        have := htrue 0 (Nat.succ_pos j)
        simpa using this
      have htail : (List.range' (s + 1) m).takeWhile p = List.range' (s + 1) j := by
        apply ih (s + 1) j (Nat.lt_succ_iff.mp hk)
        · intro i hi
          have := htrue (i + 1) (Nat.succ_lt_succ hi)
          simpa [Nat.add_assoc, Nat.add_comm 1 i] using this
        · intro hj
          have := hfalse (Nat.succ_lt_succ hj)
          simpa [Nat.add_assoc, Nat.add_comm 1 j] using this
      simp [h0, htail, List.range'_succ]

/-- Last element of a nonempty arithmetic range. -/
theorem getLast?_range'_succ : ∀ (k s : Nat),
    (List.range' s (k + 1)).getLast? = some (s + k) := by
  intro k
  induction k with
  | zero => intro s; simp [List.range'_succ]
  | succ j ih =>
    intro s
    rw [List.range'_succ, List.getLast?_cons, ih (s + 1)]
    simp [Nat.add_assoc, Nat.add_comm 1 j]

/-- Claim C2: if the base port is occupied and some port in the scanned
window `base..base+98` is free, `get_available_port` returns the smallest
free port `≥ base`: a port `q` that is free, at least `base`, and such
that every port from `base` up to `q` exclusive is occupied. -/
theorem get_available_port_first_free (occupied : Nat → Bool) (base : Nat)
    (hbase : occupied base = true)
    (hfree : ∃ k, k < 99 ∧ occupied (base + k) = false) :
    ∃ q, get_available_port occupied base = some q ∧
      occupied q = false ∧ base ≤ q ∧
      ∀ r, base ≤ r → r < q → occupied r = true := by
  classical
  have hex : ∃ k, occupied (base + k) = false := ⟨hfree.choose, hfree.choose_spec.2⟩
  set k₀ := Nat.find hex with hk₀def
  have hk₀free : occupied (base + k₀) = false := Nat.find_spec hex
  have hk₀min : ∀ j, j < k₀ → occupied (base + j) = true := by
    intro j hj
    have := Nat.find_min hex hj
    simpa using this
  have hk₀le : k₀ < 99 := by
    obtain ⟨k, hk, hkf⟩ := hfree
    have : k₀ ≤ k := Nat.find_min' hex hkf
    omega
  have hk₀pos : 0 < k₀ := by
    rcases Nat.eq_zero_or_pos k₀ with h | h
    · exfalso
      rw [h] at hk₀free
      simp at hk₀free
      rw [hk₀free] at hbase
      exact Bool.false_ne_true hbase
    · exact h
  have htw : (List.range' base 99).takeWhile occupied = List.range' base k₀ :=
    takeWhile_range'_eq occupied 99 base k₀ (Nat.le_of_lt hk₀le)
      hk₀min (fun _ => hk₀free)
  refine ⟨base + k₀, ?_, hk₀free, Nat.le_add_right _ _, ?_⟩
  · unfold get_available_port
    obtain ⟨j, hj⟩ : ∃ j, k₀ = j + 1 := ⟨k₀ - 1, by omega⟩
    rw [htw, hj]
    simp [getLast?_range'_succ, Nat.add_assoc]
  · intro r hbr hrk
    have := hk₀min (r - base) (by omega)
    have hrb : base + (r - base) = r := by omega
    rwa [hrb] at this

/-- Witness for C2: base 9000 with 9000,9001 occupied and 9002 free
yields 9002 (the spec's example). -/
theorem get_available_port_first_free_witness :
    ∃ q, get_available_port (fun p => p = 9000 ∨ p = 9001) 9000 = some q ∧
      (fun p : Nat => (p = 9000 ∨ p = 9001 : Bool)) q = false ∧ 9000 ≤ q ∧
      ∀ r, 9000 ≤ r → r < q → (fun p : Nat => (p = 9000 ∨ p = 9001 : Bool)) r = true := by
  have h := get_available_port_first_free
    (fun p => (p = 9000 ∨ p = 9001 : Bool)) 9000 (by decide)
    ⟨2, by decide, by decide⟩
  exact h

/-- Claim C3: if the base port itself is free, the occupied-port prefix
is empty and the `pop().expect("some port")` panics: modelled result
`none`, so no port is ever returned normally. -/
theorem get_available_port_base_free (occupied : Nat → Bool) (base : Nat)
    (hbase : occupied base = false) :
    get_available_port occupied base = none := by
  unfold get_available_port
  have htw : (List.range' base 99).takeWhile occupied = List.range' base 0 :=
    takeWhile_range'_eq occupied 99 base 0 (by omega)
      (by intro i hi; omega) (by intro _; simpa using hbase)
  rw [htw]
  simp

/-- Witness for C3: with no port occupied at all and base 9000, the
allocator panics (modelled `none`). -/
theorem get_available_port_base_free_witness :
    get_available_port (fun _ => false) 9000 = none :=
  get_available_port_base_free (fun _ => false) 9000 rfl

/-- Claim C10: if every port in the scanned window `base..base+98` is
occupied, the scan keeps all 99 ports, `pop` yields `base+98`, and the
function returns `base+99` — one past the window, never probed — as a
normal result instead of an exhaustion error. -/
theorem get_available_port_exhausted (occupied : Nat → Bool) (base : Nat)
    (hall : ∀ k, k < 99 → occupied (base + k) = true) :
    get_available_port occupied base = some (base + 99) := by
  unfold get_available_port
  have htw : (List.range' base 99).takeWhile occupied = List.range' base 99 :=
    takeWhile_range'_eq occupied 99 base 99 (Nat.le_refl _) hall (by omega)
  rw [htw]
  have h99 : (99 : Nat) = 98 + 1 := rfl
  rw [h99]
  simp [getLast?_range'_succ, Nat.add_assoc]

/-- Witness for C10: every port occupied, base 9000 ⇒ returns 9099. -/
theorem get_available_port_exhausted_witness :
    get_available_port (fun _ => true) 9000 = some 9099 := by
  have h := get_available_port_exhausted (fun _ => true) 9000 (fun _ _ => rfl)
  simpa using h

/-- Unfolding equation of `network_base_octet` on a nonempty list. -/
theorem network_base_octet_cons (x : Nat) (xs : List Nat) :
    network_base_octet (x :: xs) =
      match ((sorted_octets (x :: xs)).zip
          (List.range (sorted_octets (x :: xs)).length)).find?
          (fun vi => decide ((sorted_octets (x :: xs)).getD 0 0 + vi.2 < vi.1)) with
      | some vi => some ((sorted_octets (x :: xs)).getD 0 0 + vi.2)
      | none => some ((sorted_octets (x :: xs)).getD 0 0 + (x :: xs).length) := rfl

/-- Running `find?` over a list zipped with consecutive indices, positive
case: if position `i₀` is the first index whose pair satisfies the
predicate, `find?` returns that pair. -/
theorem find?_zip_range'_eq_some (q : Nat × Nat → Bool) :
    ∀ (l : List Nat) (s i₀ : Nat), i₀ < l.length →
      q (l.getD i₀ 0, s + i₀) = true →
      (∀ j, j < i₀ → q (l.getD j 0, s + j) = false) →
      (l.zip (List.range' s l.length)).find? q = some (l.getD i₀ 0, s + i₀) := by
  intro l
  induction l with
  | nil => intro s i₀ h; simp at h
  | cons x xs ih =>
    intro s i₀ hlen hhit hmin
    rw [List.length_cons, List.range'_succ, List.zip_cons_cons, List.find?_cons]
    match i₀ with
    | 0 =>
      have hx : q (x, s) = true := by simpa using hhit
      simp [hx]
    | j + 1 =>
      have hx : q (x, s) = false := by
        have := hmin 0 (Nat.succ_pos j)
        simpa using this
      have hjlen : j < xs.length := by
        rw [List.length_cons] at hlen
        omega
      have htail := ih (s + 1) j hjlen
        (by simpa [Nat.add_assoc, Nat.add_comm 1 j] using hhit)
        (by
          intro m hm
          have := hmin (m + 1) (Nat.succ_lt_succ hm)
          simpa [Nat.add_assoc, Nat.add_comm 1 m] using this)
      simp only [hx]
      rw [htail]
      simp [Nat.add_assoc, Nat.add_comm 1 j]

/-- Running `find?` over a list zipped with consecutive indices, negative
case. -/
theorem find?_zip_range'_eq_none (q : Nat × Nat → Bool) :
    ∀ (l : List Nat) (s : Nat),
      (∀ j, j < l.length → q (l.getD j 0, s + j) = false) →
      (l.zip (List.range' s l.length)).find? q = none := by
  intro l
  induction l with
  | nil => intro s _; simp
  | cons x xs ih =>
    intro s hall
    rw [List.length_cons, List.range'_succ, List.zip_cons_cons, List.find?_cons]
    have hx : q (x, s) = false := by
      have := hall 0 (Nat.succ_pos _)
      simpa using this
    simp only [hx]
    apply ih (s + 1)
    intro m hm
    have := hall (m + 1) (Nat.succ_lt_succ hm)
    simpa [Nat.add_assoc, Nat.add_comm 1 m] using this

/-- Claim C4: for a nonempty octet list, with `sorted` the ascending sort
and `first = sorted[0]` its smallest element, the chosen base is
`172.(first + i₀)` for the least offset `i₀` with
`first + i₀ < sorted[i₀]`, and `172.(first + length)` when no offset has
such a gap. -/
theorem get_network_base_characterization (ids : List Nat) (h : ids ≠ []) :
    (∀ i₀, i₀ < ids.length →
      (sorted_octets ids).getD 0 0 + i₀ < (sorted_octets ids).getD i₀ 0 →
      (∀ j, j < i₀ →
        ¬((sorted_octets ids).getD 0 0 + j < (sorted_octets ids).getD j 0)) →
      get_network_base ids
        = some ("172." ++ toString ((sorted_octets ids).getD 0 0 + i₀))) ∧
    ((∀ j, j < ids.length →
        ¬((sorted_octets ids).getD 0 0 + j < (sorted_octets ids).getD j 0)) →
      get_network_base ids
        = some ("172." ++ toString ((sorted_octets ids).getD 0 0 + ids.length))) := by
  obtain ⟨x, xs, rfl⟩ := List.exists_cons_of_ne_nil h
  have hslen : (sorted_octets (x :: xs)).length = (x :: xs).length :=
    List.length_insertionSort _ _
  constructor
  · intro i₀ hi₀ hgap hmin
    have hfind := find?_zip_range'_eq_some
      (fun vi => decide ((sorted_octets (x :: xs)).getD 0 0 + vi.2 < vi.1))
      (sorted_octets (x :: xs)) 0 i₀ (by omega)
      (by simp only [Nat.zero_add, decide_eq_true_eq]; exact hgap)
      (by
        intro j hj
        simp only [Nat.zero_add, decide_eq_false_iff_not]
        exact hmin j hj)
    unfold get_network_base
    rw [network_base_octet_cons, List.range_eq_range', hfind]
    simp
  · intro hnogap
    have hfind := find?_zip_range'_eq_none
      (fun vi => decide ((sorted_octets (x :: xs)).getD 0 0 + vi.2 < vi.1))
      (sorted_octets (x :: xs)) 0
      (by
        intro j hj
        simp only [Nat.zero_add, decide_eq_false_iff_not]
        exact hnogap j (by omega))
    unfold get_network_base
    rw [network_base_octet_cons, List.range_eq_range', hfind]
    simp

/-- Witness for C4: the spec's three examples — octets 16,17,19 give
172.18; 16,17,18 give 172.19; 5 alone gives 172.6. -/
theorem get_network_base_characterization_witness :
    get_network_base [16, 17, 19] = some "172.18" ∧
    get_network_base [16, 17, 18] = some "172.19" ∧
    get_network_base [5] = some "172.6" := by
  refine ⟨?_, ?_, ?_⟩
  · have h := (get_network_base_characterization [16, 17, 19] (by decide)).1
      2 (by decide) (by decide) (by decide)
    exact h.trans (by decide)
  · have h := (get_network_base_characterization [16, 17, 18] (by decide)).2
      (by decide)
    exact h.trans (by decide)
  · have h := (get_network_base_characterization [5] (by decide)).2
      (by decide)
    exact h.trans (by decide)

/-- The octet chosen from a sorted occupancy list is outside the list:
helper for C5, stated over an abstract sorted list `l` with the two
branches of the source's `match` given as separate hypotheses. -/
theorem find_chosen_not_mem (l : List Nat) (hs : List.Sorted (· ≤ ·) l) (r : Nat)
    (hsome : ∀ v i, (l.zip (List.range' 0 l.length)).find?
        (fun vi => decide (l.getD 0 0 + vi.2 < vi.1)) = some (v, i) →
        r = l.getD 0 0 + i)
    (hnone : (l.zip (List.range' 0 l.length)).find?
        (fun vi => decide (l.getD 0 0 + vi.2 < vi.1)) = none →
        r = l.getD 0 0 + l.length) :
    r ∉ l := by
  classical
  by_cases hgap : ∃ i, i < l.length ∧ l.getD 0 0 + i < l.getD i 0
  · obtain ⟨i₀, hi₀, hmin⟩ : ∃ i₀, (i₀ < l.length ∧ l.getD 0 0 + i₀ < l.getD i₀ 0) ∧
        ∀ j, j < i₀ → ¬(j < l.length ∧ l.getD 0 0 + j < l.getD j 0) :=
      ⟨Nat.find hgap, Nat.find_spec hgap, fun j hj => Nat.find_min hgap hj⟩
    have hfind := find?_zip_range'_eq_some
      (fun vi => decide (l.getD 0 0 + vi.2 < vi.1)) l 0 i₀ hi₀.1
      (by simp only [Nat.zero_add, decide_eq_true_eq]; exact hi₀.2)
      (by
        intro j hj
        simp only [Nat.zero_add, decide_eq_false_iff_not]
        intro hcon
        exact hmin j hj ⟨Nat.lt_trans hj hi₀.1, hcon⟩)
    have hres : r = l.getD 0 0 + i₀ := by
      have := hsome (l.getD i₀ 0) (0 + i₀) hfind
      simpa using this
    intro hmem
    rw [List.mem_iff_getElem] at hmem
    obtain ⟨m, hm, hms⟩ := hmem
    have hgdm : l.getD m 0 = l[m] := List.getD_eq_getElem l 0 hm
    rcases Nat.lt_trichotomy m i₀ with hlt | heq | hgt
    · have hnot : ¬(l.getD 0 0 + m < l.getD m 0) := fun hc =>
        hmin m hlt ⟨hm, hc⟩
      rw [hgdm, hms] at hnot
      omega
    · subst heq
      have hgap₀ := hi₀.2
      rw [hgdm, hms] at hgap₀
      omega
    · have hle : l.get ⟨i₀, hi₀.1⟩ ≤ l.get ⟨m, hm⟩ :=
        hs.rel_get_of_lt (by simpa using hgt)
      simp only [List.get_eq_getElem, Fin.val_mk] at hle
      rw [hms] at hle
      have hgdi : l.getD i₀ 0 = l[i₀] := List.getD_eq_getElem l 0 hi₀.1
      have := hi₀.2
      omega
  · push_neg at hgap
    have hfind := find?_zip_range'_eq_none
      (fun vi => decide (l.getD 0 0 + vi.2 < vi.1)) l 0
      (by
        intro j hj
        simp only [Nat.zero_add, decide_eq_false_iff_not]
        exact Nat.not_lt.mpr (hgap j hj))
    have hres : r = l.getD 0 0 + l.length := hnone hfind
    intro hmem
    rw [List.mem_iff_getElem] at hmem
    obtain ⟨m, hm, hms⟩ := hmem
    have hgdm : l.getD m 0 = l[m] := List.getD_eq_getElem l 0 hm
    have hmle := hgap m hm
    rw [hgdm, hms] at hmle
    omega

/-- Claim C5: for every nonempty octet list (duplicates allowed), the
octet chosen by the network allocator is not among the octets already in
use. -/
theorem network_base_octet_fresh (ids : List Nat) (h : ids ≠ []) (r : Nat)
    (hr : network_base_octet ids = some r) : r ∉ ids := by
  obtain ⟨x, xs, rfl⟩ := List.exists_cons_of_ne_nil h
  have hperm : (sorted_octets (x :: xs)).Perm (x :: xs) :=
    List.perm_insertionSort _ _
  have hsorted : List.Sorted (· ≤ ·) (sorted_octets (x :: xs)) :=
    List.sorted_insertionSort _ _
  have hslen : (sorted_octets (x :: xs)).length = (x :: xs).length :=
    List.length_insertionSort _ _
  rw [network_base_octet_cons, List.range_eq_range'] at hr
  rw [← hperm.mem_iff]
  apply find_chosen_not_mem _ hsorted r
  · intro v i hfq
    rw [hfq] at hr
    simpa using hr.symm
  · intro hfq
    rw [hfq] at hr
    rw [hslen]
    simpa using hr.symm

/-- Witness for C5: the allocator's choice for octets [16, 17, 19]
(namely 18) is not among them. -/
theorem network_base_octet_fresh_witness : 18 ∉ [16, 17, 19] :=
  network_base_octet_fresh [16, 17, 19] (by decide) 18 (by decide)

/-- Claim C6: the store-error translation maps row-not-found to
`NotFound`, SQLSTATE 23505 to `UniqueViolation` carrying the details,
any other code starting with 23 to `ModelViolation` carrying the
message, and everything else — non-23 Postgres codes, non-Postgres
database errors, and non-database errors — to `UnHandledError` carrying
the source; on every well-formed store error the translation is total,
so exactly one of the four kinds is produced. -/
theorem provide_error_mapping :
    (provide_error_from .RowNotFound = some .NotFound) ∧
    (∀ msg d,
      provide_error_from (.Database (some ⟨some "23505", msg, some d⟩))
        = some (.UniqueViolation d)) ∧
    (∀ code msg det, code ≠ "23505" → starts_with code "23" = true →
      provide_error_from (.Database (some ⟨some code, msg, det⟩))
        = some (.ModelViolation msg)) ∧
    (∀ code msg det, starts_with code "23" = false →
      provide_error_from (.Database (some ⟨some code, msg, det⟩))
        = some (.UnHandledError (.Database (some ⟨some code, msg, det⟩)))) ∧
    (provide_error_from (.Database none)
      = some (.UnHandledError (.Database none))) ∧
    (∀ t, provide_error_from (.Other t)
      = some (.UnHandledError (.Other t))) ∧
    (∀ e, sqlx_wellformed e → ∃ pe, provide_error_from e = some pe) := by
  refine ⟨rfl, ?_, ?_, ?_, rfl, fun t => rfl, ?_⟩
  · intro msg d
    simp [provide_error_from, try_from_pg]
  · intro code msg det hne hsw
    simp [provide_error_from, try_from_pg, hne, hsw]
  · intro code msg det hsw
    have hne : code ≠ "23505" := by
      intro h
      subst h
      simp [starts_with] at hsw
    simp [provide_error_from, try_from_pg, hne, hsw]
  · intro e hwf
    match e with
    | .RowNotFound => exact ⟨_, rfl⟩
    | .Other t => exact ⟨_, rfl⟩
    | .Database none => exact ⟨_, rfl⟩
    | .Database (some pg) =>
      obtain ⟨hcode, hdet⟩ := hwf
      obtain ⟨code, hc⟩ := Option.ne_none_iff_exists'.mp hcode
      by_cases h5 : code = "23505"
      · subst h5
        have := hdet (by rw [hc])
        obtain ⟨d, hd⟩ := Option.ne_none_iff_exists'.mp this
        refine ⟨.UniqueViolation d, ?_⟩
        simp [provide_error_from, try_from_pg, hc, hd]
      · by_cases hsw : starts_with code "23" = true
        · refine ⟨.ModelViolation pg.message, ?_⟩
          simp [provide_error_from, try_from_pg, hc, h5, hsw]
        · refine ⟨.UnHandledError (.Database (some pg)), ?_⟩
          simp [provide_error_from, try_from_pg, hc, h5, hsw]

/-- Witness for C6: SQLSTATE 23514 (a check violation) maps to
`ModelViolation` carrying the message. -/
theorem provide_error_mapping_witness :
    provide_error_from (.Database (some ⟨some "23514", "check violated", none⟩))
      = some (.ModelViolation "check violated") :=
  provide_error_mapping.2.2.1 "23514" "check violated" none (by decide) (by decide)

/-- Claim C8: `create_network` asks the engine for a bridge-driver
network named `<environment>_default` with IPAM subnet `<base>.0.0/16`
and gateway `<base>.0.1`, labelled with the network kind, tool version
and owning environment name; it returns the engine-assigned id, and when
the engine response carries no id it returns the distinct `idMissing`
error, never an id. -/
theorem create_network_spec {E : Type}
    (engine : CreateNetworkOptions → Except E CreateNetworkResponse)
    (env_name ip_range_base : String) :
    (network_options env_name ip_range_base).name = env_name ++ "_default" ∧
    (network_options env_name ip_range_base).driver = "bridge" ∧
    (network_options env_name ip_range_base).ipam.config
      = some [[("Subnet", ip_range_base ++ ".0.0/16"),
               ("Gateway", ip_range_base ++ ".0.1")]] ∧
    ("nidavellir.network", "default")
      ∈ (network_options env_name ip_range_base).labels ∧
    ("nidavellir.version", "0.4.2")
      ∈ (network_options env_name ip_range_base).labels ∧
    ("nidavellir.environment", env_name)
      ∈ (network_options env_name ip_range_base).labels ∧
    (∀ id, engine (network_options env_name ip_range_base) = .ok ⟨some id⟩ →
      create_network engine env_name ip_range_base = .ok id) ∧
    (engine (network_options env_name ip_range_base) = .ok ⟨none⟩ →
      create_network engine env_name ip_range_base = .error .idMissing ∧
      ∀ id, create_network engine env_name ip_range_base ≠ .ok id) := by
  refine ⟨rfl, rfl, rfl, ?_, ?_, ?_, ?_, ?_⟩
  · simp [network_options]
  · simp [network_options]
  · simp [network_options]
  · intro id h
    simp [create_network, h]
  · intro h
    constructor
    · simp [create_network, h]
    · intro id
      simp [create_network, h]

/-- Witness for C8: an engine answering with id "netid" makes
`create_network` return that id for environment "dev1" on base 172.18. -/
theorem create_network_spec_witness :
    @create_network Unit (fun _ => .ok ⟨some "netid"⟩) "dev1" "172.18"
      = .ok "netid" :=
  (@create_network_spec Unit (fun _ => .ok ⟨some "netid"⟩)
    "dev1" "172.18").2.2.2.2.2.2.1 "netid" rfl

/-- Counterexample for C9: the claim states that every non-nginx
service's container is created without a binding to the allocated port,
but a non-nginx service whose own configuration maps container port 80
to host port "9002" keeps that binding when the allocated port is 9002:
its container does carry a binding to the allocated port. -/
theorem nginx_binding_counterexample :
    api_service_example.service ≠ "nginx" ∧
    binds_host_port (twerg_transform "netid" 9002 api_service_example) 9002
      = true := by
  decide

/-- Claim C9 (amended): `create_twerg` replaces the ports of exactly the
service named "nginx" with the single mapping container port 80 ↦
allocated host port (discarding its configured ports, so its container's
bindings are exactly 80/tcp to the allocated port), and leaves every
other service's configured ports unchanged — so a non-nginx container
binds the allocated port only if its own configuration already did. -/
theorem twerg_transform_ports (network_id : String) (port : Nat)
    (config : ServiceConfig) :
    (config.service = "nginx" →
      (twerg_transform network_id port config).ports
        = some [("80", some (toString port))] ∧
      container_port_bindings (twerg_transform network_id port config)
        = some [("80/tcp", [⟨"0.0.0.0", toString port⟩])]) ∧
    (config.service ≠ "nginx" →
      (twerg_transform network_id port config).ports = config.ports) := by
  constructor
  · intro h
    constructor
    · simp [twerg_transform, h]
    · simp [twerg_transform, container_port_bindings, h]
  · intro h
    simp [twerg_transform, h]

/-- Witness for C9: with allocated port 9002, the nginx service's ports
become 80 ↦ "9002" while the api service's ports stay as configured. -/
theorem twerg_transform_ports_witness :
    (twerg_transform "netid" 9002 nginx_service_example).ports
      = some [("80", some "9002")] ∧
    (twerg_transform "netid" 9002 api_service_example).ports
      = api_service_example.ports := by
  constructor
  · exact ((twerg_transform_ports "netid" 9002 nginx_service_example).1
      (by decide)).1.trans (by decide)
  · exact (twerg_transform_ports "netid" 9002 api_service_example).2 (by decide)

/-- Counterexample for C1: the claim orders the steps as Start,
PortAllocated, NetworkBaseChosen, … with port allocation before the
network-base choice; on an all-successful run the trace instead places
NetworkBaseChosen strictly before PortAllocated (source order:
`get_network_base` at line 77, `get_available_port` at line 81). -/
theorem pipeline_order_counterexample :
    (create_environment_run all_ok_oracle).1
      = [.Start, .NetworkBaseChosen, .PortAllocated, .NetworkCreated,
         .ServicesLaunched, .Persisted, .Done] ∧
    ¬ ((create_environment_run all_ok_oracle).1.indexOf .PortAllocated
        < (create_environment_run all_ok_oracle).1.indexOf .NetworkBaseChosen) := by
  decide

/-- Case analysis of one pipeline run: the trace is always a prefix of
the canonical order, and either the run completed the whole order or it
ended in an error. -/
theorem create_environment_run_cases {E : Type} (o : PipelineOracle E) :
    (∃ n, (create_environment_run o).1 = pipeline_order.take n) ∧
    ((create_environment_run o).1 = pipeline_order ∨
      ∃ e, (create_environment_run o).2.2.2 = .error e) := by
  unfold create_environment_run
  repeat' split
  all_goals
    first
    | exact ⟨⟨7, rfl⟩, Or.inl rfl⟩
    | exact ⟨⟨1, rfl⟩, Or.inr ⟨_, rfl⟩⟩
    | exact ⟨⟨2, rfl⟩, Or.inr ⟨_, rfl⟩⟩
    | exact ⟨⟨3, rfl⟩, Or.inr ⟨_, rfl⟩⟩
    | exact ⟨⟨4, rfl⟩, Or.inr ⟨_, rfl⟩⟩
    | exact ⟨⟨5, rfl⟩, Or.inr ⟨_, rfl⟩⟩

/-- Claim C1 (amended): within one provisioning run the completed steps
are always an order-preserving prefix of Start, NetworkBaseChosen,
PortAllocated, NetworkCreated, ServicesLaunched, Persisted, Done — the
network-base choice precedes the host-port allocation — and a successful
run completes them all in exactly that order. -/
theorem pipeline_steps_ordered {E : Type} (o : PipelineOracle E) :
    (∃ n, (create_environment_run o).1 = pipeline_order.take n) ∧
    (∀ p, (create_environment_run o).2.2.2 = .ok p →
      (create_environment_run o).1 = pipeline_order) := by
  obtain ⟨h1, h2⟩ := create_environment_run_cases o
  refine ⟨h1, ?_⟩
  intro p hp
  rcases h2 with h | ⟨e, he⟩
  · exact h
  · rw [hp] at he
    exact (Except.noConfusion he)

/-- Witness for C1: the all-successful oracle completes the full
canonical step order. -/
theorem pipeline_steps_ordered_witness :
    (create_environment_run all_ok_oracle).1 = pipeline_order :=
  (pipeline_steps_ordered all_ok_oracle).2 9002 rfl

/-- Short-circuiting of the launch loop: when entry `k` is the first to
fail, exactly the first `k+1` services are attempted and the loop stops
with that error. -/
theorem run_launches_short_circuit {E : Type}
    (launch : ServiceConfig → Except E Unit) :
    ∀ (l : List ServiceConfig) (k : Nat) (e : E), k < l.length →
      launch (l.getD k default) = .error e →
      (∀ j, j < k → launch (l.getD j default) = .ok ()) →
      run_launches launch l = (l.take (k + 1), .error e) := by
  intro l
  induction l with
  | nil => intro k e hk; simp at hk
  | cons c cs ih =>
    intro k e hk hfail hok
    match k with
    | 0 =>
      simp only [List.getD_cons_zero] at hfail
      simp [run_launches, hfail]
    | j + 1 =>
      have hc : launch c = .ok () := by
        have := hok 0 (Nat.succ_pos j)
        simpa using this
      have htail := ih j e (by simpa using hk)
        (by simpa using hfail)
        (by
          intro m hm
          have := hok (m + 1) (Nat.succ_lt_succ hm)
          simpa using this)
      simp [run_launches, hc, htail]

/-- Claim C7: service launches are strictly sequential and short-circuit
on the first failure — when the service at position `k` fails and all
earlier ones succeed, exactly the first `k+1` (rewritten) services are
attempted, the store's `create_environment` stage is never reached (no
Environment row is persisted), and the pipeline returns the launch
error. -/
theorem create_environment_no_persist_on_launch_failure {E : Type}
    (o : PipelineOracle E) (config : List ServiceConfig) (nb : String)
    (port : Nat) (network_id : String) (k : Nat) (e : E)
    (hconfig : o.config = .ok config)
    (hconnect : o.connect = .ok ())
    (hnb : o.network_base = .ok nb)
    (hport : o.port = .ok port)
    (hnet : o.create_net = .ok network_id)
    (hk : k < config.length)
    (hfail : o.launch ((config.map (twerg_transform network_id port)).getD
      k default) = .error e)
    (hok : ∀ j, j < k →
      o.launch ((config.map (twerg_transform network_id port)).getD
        j default) = .ok ()) :
    (create_environment_run o).2.1
      = (config.map (twerg_transform network_id port)).take (k + 1) ∧
    (create_environment_run o).2.2.1 = false ∧
    (create_environment_run o).2.2.2 = .error e := by
  have hrl := run_launches_short_circuit o.launch
    (config.map (twerg_transform network_id port)) k e
    (by simpa using hk) hfail hok
  simp [create_environment_run, hconfig, hconnect, hnb, hport, hnet, hrl]

/-- Witness for C7: with two services of which the second (nginx) fails
to launch, only the two first services are attempted, the persistence
stage is never reached, and the error is returned. -/
theorem create_environment_no_persist_witness :
    (create_environment_run failing_oracle).2.1
      = ([api_service_example, nginx_service_example].map
          (twerg_transform "netid" 9002)).take 2 ∧
    (create_environment_run failing_oracle).2.2.1 = false ∧
    (create_environment_run failing_oracle).2.2.2 = .error "boom" := by
  have h := create_environment_no_persist_on_launch_failure failing_oracle
    [api_service_example, nginx_service_example] "172.18" 9002 "netid" 1 "boom"
    rfl rfl rfl rfl rfl (by decide) (by rfl)
    (by
      intro j hj
      interval_cases j
      rfl)
  exact h

end Nidavellir
